import Mathlib

/-!
Shallow embedding of the faultgraph simulation core (Rust sources under src/).
Floating point values are modelled by the rationals; NodeId and EdgeId are
modelled as plain Nat indices (the source wraps a dense usize).
Rust indexing that would panic out of range is modelled with getD and a
zero-valued default; well-formedness hypotheses on the theorems keep the
defaults unobservable on the inputs the program constructs.
-/

namespace FaultGraph

/-- Models src/graph/node.rs Node: (id, name, capacity, gain). -/
structure Node where
  id : Nat
  name : String
  capacity : ℚ
  gain : ℚ
deriving Repr, DecidableEq

/-- Models src/graph/edge.rs Edge: (id, from, to, weight); from is a Lean keyword,
hence the trailing underscore. -/
structure Edge where
  id : Nat
  from_ : Nat
  to_ : Nat
  weight : ℚ
deriving Repr, DecidableEq

def dNode : Node := ⟨0, "", 0, 0⟩

def dEdge : Edge := ⟨0, 0, 0, 0⟩

/-- Models src/graph/graph.rs Graph: nodes, edges and the precomputed
adjacency lists. -/
structure Graph where
  nodes : List Node
  edges : List Edge
  outgoing : List (List Nat)
  incoming : List (List Nat)
deriving Repr, DecidableEq

/-- Models the += push into outgoing[e.from] / incoming[e.to_] in Graph::new. -/
def pushAt (l : List (List Nat)) (i : Nat) (x : Nat) : List (List Nat) :=
  l.set i (l.getD i [] ++ [x])

/-- Models Graph::new: a single linear scan over the edges filling the
adjacency lists. -/
def Graph.new (nodes : List Node) (edges : List Edge) : Graph :=
  let outgoing := edges.foldl (fun acc e => pushAt acc e.from_ e.id)
    (List.replicate nodes.length [])
  let incoming := edges.foldl (fun acc e => pushAt acc e.to_ e.id)
    (List.replicate nodes.length [])
  ⟨nodes, edges, outgoing, incoming⟩

def Graph.node_by_id (g : Graph) (id : Nat) : Node := g.nodes.getD id dNode

def Graph.edge_by_id (g : Graph) (id : Nat) : Edge := g.edges.getD id dEdge

def Graph.outgoing_of (g : Graph) (id : Nat) : List Nat := g.outgoing.getD id []

def Graph.incoming_of (g : Graph) (id : Nat) : List Nat := g.incoming.getD id []

def Graph.node_count (g : Graph) : Nat := g.nodes.length

/-- Models src/state/node_state.rs NodeState. -/
structure NodeState where
  demand : ℚ
  served : ℚ
  backlog : ℚ
  health : ℚ
deriving Repr, DecidableEq

def dNodeState : NodeState := ⟨0, 0, 0, 0⟩

def NodeState.set_demand (n : NodeState) (load : ℚ) : NodeState :=
  { n with demand := load }

def NodeState.set_served (n : NodeState) (load : ℚ) : NodeState :=
  { n with served := load }

/-- Models set_backlog: the stored value is load.max(0.0). -/
def NodeState.set_backlog (n : NodeState) (load : ℚ) : NodeState :=
  { n with backlog := max load 0 }

/-- Models set_health: the stored value is health.clamp(0.0, 1.0). -/
def NodeState.set_health (n : NodeState) (health : ℚ) : NodeState :=
  { n with health := min (max health 0) 1 }

def NodeState.is_healthy (n : NodeState) : Bool := 0 < n.health

/-- Models src/state/edge_state.rs EdgeState. -/
structure EdgeState where
  enabled : Bool
deriving Repr, DecidableEq

def dEdgeState : EdgeState := ⟨false⟩

def EdgeState.is_enabled (e : EdgeState) : Bool := e.enabled

/-- Models src/simulation/modifiers.rs CapacityModifier. -/
structure CapacityModifier where
  factor : ℚ
  active : Bool
  just_applied : Bool
  turns : Nat
  remaining : Nat
deriving Repr, DecidableEq

def CapacityModifier.new : CapacityModifier :=
  ⟨1, false, false, 3, 0⟩

def CapacityModifier.is_active (m : CapacityModifier) : Bool := m.active

/-- Models the factor() accessor (the Rust method shares its name with the
field): the stored factor while active, BASELINE_FACTOR = 1.0 otherwise. -/
def CapacityModifier.factorVal (m : CapacityModifier) : ℚ :=
  if m.active then m.factor else 1

/-- Models apply: Rust mutates self and returns a bool, modelled as a pair of
the returned bool and the updated modifier. -/
def CapacityModifier.apply (m : CapacityModifier) (factor : ℚ) :
    Bool × CapacityModifier :=
  if m.is_active then (false, m)
  else (true, { m with factor := factor, active := true, just_applied := true,
                       remaining := m.turns })

def CapacityModifier.deactivate (m : CapacityModifier) : CapacityModifier :=
  { m with factor := 1, active := false, just_applied := false, remaining := 0 }

def CapacityModifier.tick (m : CapacityModifier) : CapacityModifier :=
  if ¬ m.is_active then m
  else if m.just_applied then { m with just_applied := false }
  else
    let m1 := if 0 < m.remaining then { m with remaining := m.remaining - 1 } else m
    if m1.remaining = 0 then m1.deactivate else m1

/-- Models src/state/snapshot.rs Snapshot. -/
structure Snapshot where
  turn : Nat
  node_states : List NodeState
  edge_states : List EdgeState
  capacity_mods : List CapacityModifier
deriving Repr, DecidableEq

def Snapshot.tick (s : Snapshot) : Snapshot :=
  { s with capacity_mods := s.capacity_mods.map CapacityModifier.tick }

def Snapshot.capacity_mod (s : Snapshot) (group_id : Nat) : CapacityModifier :=
  s.capacity_mods.getD group_id CapacityModifier.new

/-- Models update_capacity: forwards apply to the indexed modifier, returns
its bool; Rust mutates the vector element in place, modelled with set. -/
def Snapshot.update_capacity (s : Snapshot) (group_id : Nat) (factor : ℚ) :
    Bool × Snapshot :=
  let r := (s.capacity_mods.getD group_id CapacityModifier.new).apply factor
  (r.1, { s with capacity_mods := s.capacity_mods.set group_id r.2 })

/-- Models Snapshot::edge_load, the flow-splitting rule. -/
def Snapshot.edge_load (s : Snapshot) (edged_id : Nat) (g : Graph) : ℚ :=
  let edge := g.edge_by_id edged_id
  let f_id := edge.from_
  if ¬ (s.node_states.getD f_id dNodeState).is_healthy
      ∨ ¬ (s.edge_states.getD edged_id dEdgeState).is_enabled
      ∨ (s.node_states.getD f_id dNodeState).served = 0 then 0
  else
    let total_weight :=
      (((g.outgoing_of edge.from_).filter
          (fun e_id => (s.edge_states.getD e_id dEdgeState).is_enabled)).map
        (fun e_id => (g.edge_by_id e_id).weight)).sum
    if total_weight = 0 then 0
    else
      let node := g.node_by_id edge.from_
      let served := (s.node_states.getD f_id dNodeState).served
      let total_demand := served * node.gain
      total_demand * (edge.weight / total_weight)

/-- Models src/analysis/groups.rs Group. -/
structure Group where
  name : String
  nodes : List Nat
deriving Repr, DecidableEq

def dGroup : Group := ⟨"", []⟩

/-- Models src/analysis/groups.rs GroupSet. -/
structure GroupSet where
  groups : List Group
  node_to_group : List Nat
deriving Repr, DecidableEq

/-- Models the node_to_group[n_id] = g_id write in GroupSet::new. -/
def writeGroup (l : List Nat) (n_id g_id : Nat) : List Nat := l.set n_id g_id

/-- Models GroupSet::new: the reverse index starts as vec[0; total node count]
and is overwritten per group; no partition check is performed. -/
def GroupSet.new (groups : List Group) : GroupSet :=
  let nodes_cnt := (groups.map (fun g => g.nodes.length)).sum
  let node_to_group :=
    (List.range groups.length).foldl
      (fun acc g_id =>
        (groups.getD g_id dGroup).nodes.foldl
          (fun acc2 n_id => writeGroup acc2 n_id g_id) acc)
      (List.replicate nodes_cnt 0)
  ⟨groups, node_to_group⟩

def GroupSet.group_by_node_id (gs : GroupSet) (node_id : Nat) : Nat :=
  gs.node_to_group.getD node_id 0

/-- Models the Scenario trait of src/scenario/scenario.rs as a record of its
three pure methods. -/
structure Scenario where
  load : Nat → Nat → ℚ
  entry_nodes : List Nat
  ops_per_turn : Nat

/-- Models src/simulation/engine.rs SimulationEngine. -/
structure SimulationEngine where
  graph : Graph
  groups : GroupSet
  previous_snapshot : Option Snapshot
  current_snapshot : Snapshot
  scenario : Scenario
  remaining_ops : Nat

/-- Models SimulationEngine::new: stores its arguments and seeds
remaining_ops from the scenario; the source performs no validation. -/
def SimulationEngine.new (graph : Graph) (groups : GroupSet)
    (initial_snapshot : Snapshot) (scenario : Scenario) : SimulationEngine :=
  ⟨graph, groups, none, initial_snapshot, scenario, scenario.ops_per_turn⟩

/-- Models the prop[i] += q accumulation in step(). -/
def bump (l : List ℚ) (i : Nat) (q : ℚ) : List ℚ :=
  l.set i (l.getD i 0 + q)

/-- Models the first propagation loop of step(): every index of the node-state
vector is visited; healthy producers add edge_load over their outgoing edges
into prop. -/
def propagate (g : Graph) (cur : Snapshot) : List ℚ :=
  (List.range cur.node_states.length).foldl
    (fun acc n_id =>
      let n := g.node_by_id n_id
      if (cur.node_states.getD n.id dNodeState).is_healthy then
        (g.outgoing_of n.id).foldl
          (fun acc2 e_id =>
            let e := g.edge_by_id e_id
            bump acc2 e.to_ (cur.edge_load e.id g))
          acc
      else acc)
    (List.replicate g.node_count 0)

/-- Models the entry-node loop of step(): one += per occurrence in the
entry_nodes list. -/
def injectEntries (scen : Scenario) (turn : Nat) (prop : List ℚ) : List ℚ :=
  scen.entry_nodes.foldl (fun acc id => bump acc id (scen.load id turn)) prop

/-- Models the per-node state update closure of step() at index i; the
iter().find().is_some() test for an enabled outgoing edge is List.any. -/
def stepNode (g : Graph) (gs : GroupSet) (cur : Snapshot) (prop : List ℚ)
    (i : Nat) : NodeState :=
  let n0 := cur.node_states.getD i dNodeState
  let n1 := n0.set_demand (prop.getD i 0)
  if ¬ n1.is_healthy then (n1.set_served 0).set_backlog 0
  else
    let throttle := (cur.capacity_mod (gs.group_by_node_id i)).factorVal
    let capacity := (g.node_by_id i).capacity * throttle
    let outgoing_edges := g.outgoing_of i
    let total := prop.getD i 0 + n1.backlog
    let n2 := n1.set_served (min capacity total)
    let has_active_edge :=
      outgoing_edges.any (fun e_id => (cur.edge_states.getD e_id dEdgeState).is_enabled)
    let n3 :=
      if 0 < outgoing_edges.length ∧ has_active_edge = false then n2.set_backlog total
      else n2.set_backlog (total - n2.served)
    if capacity = 0 then n3
    else
      let pressure := total / capacity
      let k : ℚ := 1/10
      if 1 < pressure then n3.set_health (n3.health - k * (pressure - 1))
      else if pressure < 1 ∧ n3.backlog = 0 then n3.set_health (n3.health + 1/100)
      else n3

/-- Models SimulationEngine::step: tick modifiers, propagate, inject entries,
rebuild the node-state vector, publish the new snapshot and reset the ops
budget. -/
def SimulationEngine.step (e : SimulationEngine) : SimulationEngine :=
  let cur := e.current_snapshot.tick
  let prop := injectEntries e.scenario cur.turn (propagate e.graph cur)
  let new_node_states :=
    (List.range cur.node_states.length).map (stepNode e.graph e.groups cur prop)
  { e with
    previous_snapshot := some cur,
    current_snapshot :=
      ⟨cur.turn + 1, new_node_states, cur.edge_states, cur.capacity_mods⟩,
    remaining_ops := e.scenario.ops_per_turn }

/-- Models the private try_capacity_modifier: the short-circuiting && means
update_capacity runs only when ops remain, and the decrement only when apply
returned true. -/
def SimulationEngine.try_capacity_modifier (e : SimulationEngine)
    (group_id : Nat) (factor : ℚ) : SimulationEngine :=
  if 0 < e.remaining_ops then
    let r := e.current_snapshot.update_capacity group_id factor
    { e with
      current_snapshot := r.2,
      remaining_ops := if r.1 then e.remaining_ops - 1 else e.remaining_ops }
  else e

def SimulationEngine.try_throttle_group (e : SimulationEngine) (group_id : Nat) :
    SimulationEngine :=
  e.try_capacity_modifier group_id (1/2)

def SimulationEngine.try_boost_group (e : SimulationEngine) (group_id : Nat) :
    SimulationEngine :=
  e.try_capacity_modifier group_id (3/2)

/-- Models the public operations a driver can invoke between construction and
observation, for frame-effect statements over arbitrary call sequences. -/
inductive EngineOp where
  | step : EngineOp
  | throttle : Nat → EngineOp
  | boost : Nat → EngineOp

def applyOp (e : SimulationEngine) : EngineOp → SimulationEngine
  | EngineOp.step => e.step
  | EngineOp.throttle g => e.try_throttle_group g
  | EngineOp.boost g => e.try_boost_group g

/-- Models src/analysis/groups.rs GroupTrend. -/
inductive GroupTrend where
  | Up : GroupTrend
  | Down : GroupTrend
  | Flat : GroupTrend
deriving Repr, DecidableEq, Inhabited

/-- Models src/analysis/groups.rs GroupHealth. -/
inductive GroupHealth where
  | Ok : GroupHealth
  | Degraded : GroupHealth
  | Critical : GroupHealth
  | Failed : GroupHealth
deriving Repr, DecidableEq, Inhabited

/-- Models src/analysis/groups.rs GroupSummary, including the pressure vector
the aggregate_groups call site fills in. -/
structure GroupSummary where
  name : String
  avg_utilization : ℚ
  utilization_trend : GroupTrend
  node_count : Nat
  raw_health : ℚ
  health : GroupHealth
  health_trend : GroupTrend
  healthy_nodes : Nat
  pressure : List ℚ
deriving Repr, DecidableEq, Inhabited

/-- Models calc_util of src/analysis/analysis.rs: served and modified capacity
summed over the healthy nodes of the group, then the guarded ratio. -/
def calc_util (snapshot : Snapshot) (group : Group) (g : Graph)
    (group_id : Nat) : ℚ :=
  let node_states := snapshot.node_states
  let capacity_mod := snapshot.capacity_mod group_id
  let agg :=
    ((group.nodes.filter
        (fun n_id => (node_states.getD n_id dNodeState).is_healthy)).map
      (fun id => ((node_states.getD id dNodeState).served,
                  (g.node_by_id id).capacity * capacity_mod.factorVal))).foldl
      (fun (p : ℚ × ℚ) (x : ℚ × ℚ) => (p.1 + x.1, p.2 + x.2)) (0, 0)
  if 0 < agg.2 then agg.1 / agg.2 else 0

/-- Models calc_health of src/analysis/analysis.rs: arithmetic mean of health
over all nodes of the group, 0 for an empty group. -/
def calc_health (snapshot : Snapshot) (group : Group) : ℚ :=
  let h := group.nodes.map
    (fun id => (snapshot.node_states.getD id dNodeState).health)
  if h.length = 0 then 0 else h.sum / (h.length : ℚ)

/-- Models aggregate_groups of src/analysis/analysis.rs, one summary per group
in group order. -/
def aggregate_groups (group_set : GroupSet)
    (current_snapshot previous_snapshot : Snapshot) (g : Graph) :
    List GroupSummary :=
  let epsilon : ℚ := 1/50
  (List.range group_set.groups.length).map (fun g_id =>
    let gr := group_set.groups.getD g_id dGroup
    let prev_avg_util := calc_util previous_snapshot gr g g_id
    let curr_avg_util := calc_util current_snapshot gr g g_id
    let util_diff := curr_avg_util - prev_avg_util
    let avg_util_trend :=
      if epsilon < util_diff then GroupTrend.Up
      else if util_diff < -epsilon then GroupTrend.Down
      else GroupTrend.Flat
    let prev_health := calc_health previous_snapshot gr
    let curr_health := calc_health current_snapshot gr
    let health_diff := curr_health - prev_health
    let health_trend :=
      if epsilon < health_diff then GroupTrend.Up
      else if health_diff < -epsilon then GroupTrend.Down
      else GroupTrend.Flat
    let health :=
      if 4/5 < curr_health then GroupHealth.Ok
      else if 3/10 < curr_health then GroupHealth.Degraded
      else if 0 < curr_health then GroupHealth.Critical
      else GroupHealth.Failed
    let healthy_nodes :=
      (gr.nodes.filter
        (fun n_id =>
          (current_snapshot.node_states.getD n_id dNodeState).is_healthy)).length
    let pressure :=
      gr.nodes.foldl
        (fun acc n_id =>
          (g.incoming_of n_id).foldl
            (fun acc2 e_id =>
              let load := current_snapshot.edge_load e_id g
              let edge := g.edge_by_id e_id
              bump acc2 (group_set.group_by_node_id edge.from_) load)
            acc)
        (List.replicate group_set.groups.length 0)
    ⟨gr.name, curr_avg_util, avg_util_trend, gr.nodes.length, curr_health,
     health, health_trend, healthy_nodes, pressure⟩)

/-- The total static weight W over the enabled outgoing edges of node u, the
denominator of the flow-splitting rule. -/
def enabled_weight (s : Snapshot) (g : Graph) (u : Nat) : ℚ :=
  (((g.outgoing_of u).filter
      (fun e_id => (s.edge_states.getD e_id dEdgeState).is_enabled)).map
    (fun e_id => (g.edge_by_id e_id).weight)).sum

/-- Fixture: the S5 graph, nodes A(100,1) and B(40,1) with the edge A to B
of weight 1. -/
def g_s5 : Graph := Graph.new [⟨0, "A", 100, 1⟩, ⟨1, "B", 40, 1⟩] [⟨0, 0, 1, 1⟩]

/-- Fixture: the S5 groups, one per node. -/
def gs_s5 : GroupSet := GroupSet.new [⟨"group1", [0]⟩, ⟨"group2", [1]⟩]

/-- Fixture: the S5 initial snapshot, all health 1, edge enabled, baseline
modifiers. -/
def snap_s5 : Snapshot :=
  ⟨0, [⟨0, 0, 0, 1⟩, ⟨0, 0, 0, 1⟩], [⟨true⟩],
   [CapacityModifier.new, CapacityModifier.new]⟩

/-- Fixture: the S5 scenario, entry A with loads 100, 80, 20. -/
def scen_s5 : Scenario :=
  ⟨fun n t => if n = 0 then ([100, 80, 20] : List ℚ).getD t 0 else 0, [0], 1⟩

def engine_s5 : SimulationEngine := SimulationEngine.new g_s5 gs_s5 snap_s5 scen_s5

/-- Fixture: a constant-load scenario over the S5 graph, used by witnesses. -/
def scen_const : Scenario := ⟨fun _ _ => 10, [0], 1⟩

def engine_w : SimulationEngine := SimulationEngine.new g_s5 gs_s5 snap_s5 scen_const

/-- Fixture: a single node, no edges, and an entry list naming node 0 twice
with a constant load of 5. -/
def g_dup : Graph := Graph.new [⟨0, "A", 100, 1⟩] []

def gs_dup : GroupSet := GroupSet.new [⟨"g", [0]⟩]

def snap_dup : Snapshot := ⟨0, [⟨0, 0, 0, 1⟩], [], [CapacityModifier.new]⟩

def scen_dup : Scenario := ⟨fun _ _ => 5, [0, 0], 1⟩

def engine_dup : SimulationEngine := SimulationEngine.new g_dup gs_dup snap_dup scen_dup

/-- Fixture: a snapshot whose state vectors are all empty, mismatching the
one-node graph it is paired with. -/
def snap_bad : Snapshot := ⟨0, [], [], []⟩

def scen_zero : Scenario := ⟨fun _ _ => 0, [], 1⟩

def engine_bad : SimulationEngine := SimulationEngine.new g_dup gs_dup snap_bad scen_zero

/-- Fixture: the S5 graph with node 0 already serving 50, for the
flow-splitting witness. -/
def snap_c1 : Snapshot :=
  ⟨0, [⟨0, 50, 0, 1⟩, ⟨0, 0, 0, 1⟩], [⟨true⟩],
   [CapacityModifier.new, CapacityModifier.new]⟩

theorem g_s5_eval : g_s5 =
    ⟨[⟨0, "A", 100, 1⟩, ⟨1, "B", 40, 1⟩], [⟨0, 0, 1, 1⟩], [[0], []], [[], [0]]⟩ :=
  rfl

theorem gs_s5_eval : gs_s5 = ⟨[⟨"group1", [0]⟩, ⟨"group2", [1]⟩], [0, 1]⟩ := rfl

theorem g_dup_eval : g_dup = ⟨[⟨0, "A", 100, 1⟩], [], [[]], [[]]⟩ := rfl

theorem gs_dup_eval : gs_dup = ⟨[⟨"g", [0]⟩], [0]⟩ := rfl

theorem foldl_inv {α β : Type _} {P : β → Prop} (stp : β → α → β)
    (h : ∀ b a, P b → P (stp b a)) :
    ∀ (xs : List α) (b : β), P b → P (xs.foldl stp b) := by
  intro xs
  induction xs with
  | nil => intro b hb; exact hb
  | cons a t ih => intro b hb; exact ih (stp b a) (h b a hb)

theorem getD_prop {α : Type _} (P : α → Prop) (d : α) (hd : P d)
    (l : List α) (hl : ∀ x ∈ l, P x) : ∀ i, P (l.getD i d) := by
  induction l with
  | nil => intro i; simpa [List.getD] using hd
  | cons a t ih =>
    intro i
    cases i with
    | zero => simpa using hl a (by simp)
    | succ j =>
      simpa using ih (fun x hx => hl x (by simp [hx])) j

theorem getD_set_self {α : Type _} (d x : α) (l : List α) {i : Nat}
    (h : i < l.length) : (l.set i x).getD i d = x := by
  rw [List.getD_eq_getElem?_getD, @List.getElem?_set_self α l i x h]
  rfl

theorem getD_set_ne {α : Type _} (d x : α) (l : List α) {i j : Nat}
    (h : i ≠ j) : (l.set i x).getD j d = l.getD j d := by
  rw [List.getD_eq_getElem?_getD, List.getElem?_set_ne h,
    ← List.getD_eq_getElem?_getD]

theorem getD_map_range {α : Type _} (d : α) :
    ∀ (n : Nat) (f : Nat → α) (i : Nat), i < n →
      ((List.range n).map f).getD i d = f i := by
  intro n
  induction n with
  | zero => intro f i h; exact absurd h (by omega)
  | succ m ih =>
    intro f i h
    rw [List.range_succ_eq_map]
    cases i with
    | zero => simp
    | succ j =>
      simp only [List.map_cons, List.getD_cons_succ, List.map_map]
      simpa using ih (fun k => f (Nat.succ k)) j (by omega)

theorem bump_length (l : List ℚ) (i : Nat) (q : ℚ) :
    (bump l i q).length = l.length := List.length_set l i _

theorem bump_getD_self (l : List ℚ) (i : Nat) (q : ℚ) (h : i < l.length) :
    (bump l i q).getD i 0 = l.getD i 0 + q := getD_set_self 0 _ l h

theorem bump_getD_ne (l : List ℚ) (q : ℚ) {i j : Nat} (h : i ≠ j) :
    (bump l i q).getD j 0 = l.getD j 0 := getD_set_ne 0 _ l h

theorem bump_nonneg (l : List ℚ) (i : Nat) (q : ℚ) (hq : 0 ≤ q)
    (hl : ∀ j, 0 ≤ l.getD j 0) : ∀ j, 0 ≤ (bump l i q).getD j 0 := by
  intro j
  by_cases hij : i = j
  · subst hij
    by_cases hlen : i < l.length
    · rw [bump_getD_self l i q hlen]
      exact add_nonneg (hl i) hq
    · rw [bump, List.set_eq_of_length_le (by omega)]
      exact hl i
  · rw [bump_getD_ne l q hij]
    exact hl j

theorem edge_load_nonneg (s : Snapshot) (g : Graph)
    (hw : ∀ ed ∈ g.edges, 0 ≤ ed.weight)
    (hgain : ∀ n ∈ g.nodes, 0 ≤ n.gain)
    (hserved : ∀ ns ∈ s.node_states, 0 ≤ ns.served)
    (eid : Nat) : 0 ≤ s.edge_load eid g := by
  have hwD : ∀ i, 0 ≤ (g.edges.getD i dEdge).weight :=
    getD_prop (fun ed => 0 ≤ ed.weight) dEdge le_rfl g.edges hw
  have hgD : ∀ i, 0 ≤ (g.nodes.getD i dNode).gain :=
    getD_prop (fun n => 0 ≤ n.gain) dNode le_rfl g.nodes hgain
  have hsD : ∀ i, 0 ≤ (s.node_states.getD i dNodeState).served :=
    getD_prop (fun ns => 0 ≤ ns.served) dNodeState le_rfl s.node_states hserved
  simp only [Snapshot.edge_load, Graph.edge_by_id, Graph.node_by_id]
  split
  · exact le_rfl
  · split
    · exact le_rfl
    · refine mul_nonneg (mul_nonneg (hsD _) (hgD _)) (div_nonneg (hwD _) ?_)
      refine List.sum_nonneg (fun x hx => ?_)
      obtain ⟨e_id, _, rfl⟩ := List.mem_map.mp hx
      exact hwD e_id

theorem propagate_nonneg (g : Graph) (cur : Snapshot)
    (hw : ∀ ed ∈ g.edges, 0 ≤ ed.weight)
    (hgain : ∀ n ∈ g.nodes, 0 ≤ n.gain)
    (hserved : ∀ ns ∈ cur.node_states, 0 ≤ ns.served) :
    ∀ j, 0 ≤ (propagate g cur).getD j 0 := by
  have h0 : ∀ j, 0 ≤ (List.replicate g.node_count (0:ℚ)).getD j 0 :=
    getD_prop (fun x => 0 ≤ x) 0 le_rfl _
      (fun x hx => le_of_eq (List.eq_of_mem_replicate hx).symm)
  refine foldl_inv (P := fun (l : List ℚ) => ∀ j, 0 ≤ l.getD j 0) _ ?_ _ _ h0
  intro b n_id hb
  dsimp only
  split
  · refine foldl_inv (P := fun (l : List ℚ) => ∀ j, 0 ≤ l.getD j 0) _ ?_ _ _ hb
    intro b2 e_id hb2
    exact bump_nonneg _ _ _ (edge_load_nonneg cur g hw hgain hserved _) hb2
  · exact hb

theorem injectEntries_nonneg (scen : Scenario) (t : Nat) (prop : List ℚ)
    (hload : ∀ n tt, 0 ≤ scen.load n tt)
    (hprop : ∀ j, 0 ≤ prop.getD j 0) :
    ∀ j, 0 ≤ (injectEntries scen t prop).getD j 0 := by
  refine foldl_inv (P := fun (l : List ℚ) => ∀ j, 0 ≤ l.getD j 0) _ ?_ _ _ hprop
  intro b a hb
  exact bump_nonneg _ _ _ (hload a t) hb

theorem foldl_bump_count (load : Nat → ℚ) :
    ∀ (ns : List Nat) (prop : List ℚ), (∀ n ∈ ns, n < prop.length) →
      ∀ v, v < prop.length →
        (ns.foldl (fun acc id => bump acc id (load id)) prop).getD v 0 =
          prop.getD v 0 + (ns.count v : ℚ) * load v := by
  intro ns
  induction ns with
  | nil => intro prop h v hv; simp
  | cons n rest ih =>
    intro prop h v hv
    simp only [List.foldl_cons]
    have hlen : (bump prop n (load n)).length = prop.length := bump_length ..
    have hrest : ∀ m ∈ rest, m < (bump prop n (load n)).length := by
      intro m hm
      rw [hlen]
      exact h m (by simp [hm])
    rw [ih (bump prop n (load n)) hrest v (by rw [hlen]; exact hv)]
    by_cases hnv : n = v
    · subst hnv
      rw [bump_getD_self prop n (load n) (h n (by simp)), List.count_cons_self]
      push_cast
      ring
    · rw [bump_getD_ne prop (load n) hnv, List.count_cons_of_ne (Ne.symm hnv)]

theorem stepNode_demand (g : Graph) (gs : GroupSet) (cur : Snapshot)
    (prop : List ℚ) (i : Nat) :
    (stepNode g gs cur prop i).demand = prop.getD i 0 := by
  simp only [stepNode, NodeState.set_demand, NodeState.set_served,
    NodeState.set_backlog, NodeState.set_health]
  split_ifs <;> rfl

theorem factorVal_tick (m : CapacityModifier) :
    m.tick.factorVal = m.factorVal ∨ m.tick.factorVal = 1 := by
  simp only [CapacityModifier.tick, CapacityModifier.is_active,
    CapacityModifier.deactivate, CapacityModifier.factorVal]
  split_ifs <;> simp_all

theorem tick_capacity_mod (s : Snapshot) (gid : Nat) :
    s.tick.capacity_mod gid = (s.capacity_mod gid).tick := by
  simp only [Snapshot.tick, Snapshot.capacity_mod]
  rw [List.getD_eq_getElem?_getD, List.getD_eq_getElem?_getD, List.getElem?_map]
  cases h : s.capacity_mods[gid]? with
  | none => rfl
  | some m => rfl

theorem step_node_states (e : SimulationEngine) :
    e.step.current_snapshot.node_states =
      (List.range e.current_snapshot.node_states.length).map
        (stepNode e.graph e.groups e.current_snapshot.tick
          (injectEntries e.scenario e.current_snapshot.turn
            (propagate e.graph e.current_snapshot.tick))) := rfl

theorem step_capacity_mods (e : SimulationEngine) :
    e.step.current_snapshot.capacity_mods =
      e.current_snapshot.tick.capacity_mods := rfl

theorem step_edge_states_eq (e : SimulationEngine) :
    e.step.current_snapshot.edge_states = e.current_snapshot.edge_states := rfl

theorem step_turn (e : SimulationEngine) :
    e.step.current_snapshot.turn = e.current_snapshot.turn + 1 := rfl

theorem tick_node_states (s : Snapshot) : s.tick.node_states = s.node_states := rfl

theorem stepNode_served_cases (g : Graph) (gs : GroupSet) (cur : Snapshot)
    (prop : List ℚ) (i : Nat) :
    (stepNode g gs cur prop i).served = 0 ∨
    (stepNode g gs cur prop i).served =
      min ((g.node_by_id i).capacity *
            (cur.capacity_mod (gs.group_by_node_id i)).factorVal)
          (prop.getD i 0 + (cur.node_states.getD i dNodeState).backlog) := by
  simp only [stepNode, NodeState.set_demand, NodeState.set_served,
    NodeState.set_backlog, NodeState.set_health]
  split_ifs <;> first | exact Or.inl rfl | exact Or.inr rfl

theorem stepNode_backlog_cases (g : Graph) (gs : GroupSet) (cur : Snapshot)
    (prop : List ℚ) (i : Nat) :
    ∃ x, (stepNode g gs cur prop i).backlog = max x 0 := by
  simp only [stepNode, NodeState.set_demand, NodeState.set_served,
    NodeState.set_backlog, NodeState.set_health]
  split_ifs <;> exact ⟨_, rfl⟩

theorem stepNode_health_cases (g : Graph) (gs : GroupSet) (cur : Snapshot)
    (prop : List ℚ) (i : Nat) :
    (stepNode g gs cur prop i).health =
      (cur.node_states.getD i dNodeState).health ∨
    ∃ x, (stepNode g gs cur prop i).health = min (max x 0) 1 := by
  simp only [stepNode, NodeState.set_demand, NodeState.set_served,
    NodeState.set_backlog, NodeState.set_health]
  split_ifs <;> first | exact Or.inl rfl | exact Or.inr ⟨_, rfl⟩

theorem stepNode_bounds (g : Graph) (gs : GroupSet) (cur : Snapshot)
    (prop : List ℚ) (i : Nat)
    (hprop : 0 ≤ prop.getD i 0)
    (hb : 0 ≤ (cur.node_states.getD i dNodeState).backlog)
    (hh0 : 0 ≤ (cur.node_states.getD i dNodeState).health)
    (hh1 : (cur.node_states.getD i dNodeState).health ≤ 1)
    (heff : 0 ≤ (g.node_by_id i).capacity *
      (cur.capacity_mod (gs.group_by_node_id i)).factorVal) :
    0 ≤ (stepNode g gs cur prop i).served ∧
    (stepNode g gs cur prop i).served ≤
      (g.node_by_id i).capacity *
        (cur.capacity_mod (gs.group_by_node_id i)).factorVal ∧
    0 ≤ (stepNode g gs cur prop i).backlog ∧
    0 ≤ (stepNode g gs cur prop i).health ∧
    (stepNode g gs cur prop i).health ≤ 1 := by
  have htot : 0 ≤ prop.getD i 0 + (cur.node_states.getD i dNodeState).backlog :=
    add_nonneg hprop hb
  refine ⟨?_, ?_, ?_, ?_, ?_⟩
  · rcases stepNode_served_cases g gs cur prop i with h | h
    · simp [h]
    · rw [h]
      exact le_min heff htot
  · rcases stepNode_served_cases g gs cur prop i with h | h
    · rw [h]
      exact heff
    · rw [h]
      exact min_le_left _ _
  · obtain ⟨x, h⟩ := stepNode_backlog_cases g gs cur prop i
    rw [h]
    exact le_max_right x 0
  · rcases stepNode_health_cases g gs cur prop i with h | ⟨x, h⟩
    · rw [h]
      exact hh0
    · rw [h]
      exact le_min (le_max_right x 0) zero_le_one
  · rcases stepNode_health_cases g gs cur prop i with h | ⟨x, h⟩
    · rw [h]
      exact hh1
    · rw [h]
      exact min_le_right _ 1

theorem stepNode_healthy_enabled (g : Graph) (gs : GroupSet) (cur : Snapshot)
    (prop : List ℚ) (i : Nat)
    (hh : (cur.node_states.getD i dNodeState).is_healthy = true)
    (hany : (g.outgoing_of i).any
      (fun e_id => (cur.edge_states.getD e_id dEdgeState).is_enabled) = true) :
    (stepNode g gs cur prop i).served =
      min ((g.node_by_id i).capacity *
            (cur.capacity_mod (gs.group_by_node_id i)).factorVal)
          (prop.getD i 0 + (cur.node_states.getD i dNodeState).backlog) ∧
    (stepNode g gs cur prop i).backlog =
      max ((prop.getD i 0 + (cur.node_states.getD i dNodeState).backlog) -
            min ((g.node_by_id i).capacity *
                  (cur.capacity_mod (gs.group_by_node_id i)).factorVal)
                (prop.getD i 0 + (cur.node_states.getD i dNodeState).backlog))
          0 := by
  have hh2 : decide (0 < (cur.node_states.getD i dNodeState).health) = true := by
    simpa [NodeState.is_healthy] using hh
  simp only [stepNode, NodeState.set_demand, NodeState.set_served,
    NodeState.set_backlog, NodeState.set_health, NodeState.is_healthy]
  simp only [hany, hh2, not_true, Bool.true_eq_false, and_false, if_false,
    if_true]
  split_ifs <;> exact ⟨rfl, rfl⟩

/-- C2: after a single step(), every node that was healthy at the start of the
step, has at least one enabled outgoing edge and positive effective capacity
satisfies served + backlog = demand + previous backlog in the new state. -/
theorem step_conservation
    (e : SimulationEngine) (i : Nat)
    (hi : i < e.current_snapshot.node_states.length)
    (hh : (e.current_snapshot.node_states.getD i dNodeState).is_healthy = true)
    (hedge : ∃ eid ∈ e.graph.outgoing_of i,
        (e.current_snapshot.edge_states.getD eid dEdgeState).is_enabled = true)
    (hcappos : 0 < (e.graph.node_by_id i).capacity *
        ((e.current_snapshot.tick).capacity_mod
          (e.groups.group_by_node_id i)).factorVal) :
    (e.step.current_snapshot.node_states.getD i dNodeState).served +
      (e.step.current_snapshot.node_states.getD i dNodeState).backlog =
    (e.step.current_snapshot.node_states.getD i dNodeState).demand +
      (e.current_snapshot.node_states.getD i dNodeState).backlog := by
  have hget : e.step.current_snapshot.node_states.getD i dNodeState =
      stepNode e.graph e.groups e.current_snapshot.tick
        (injectEntries e.scenario e.current_snapshot.turn
          (propagate e.graph e.current_snapshot.tick)) i := by
    rw [step_node_states]
    exact getD_map_range dNodeState _ _ i hi
  have hany : (e.graph.outgoing_of i).any
      (fun e_id =>
        ((e.current_snapshot.tick).edge_states.getD e_id dEdgeState).is_enabled) =
        true := by
    rw [List.any_eq_true]
    obtain ⟨eid, hmem, hen⟩ := hedge
    exact ⟨eid, hmem, hen⟩
  obtain ⟨hsv, hbk⟩ := stepNode_healthy_enabled e.graph e.groups
    e.current_snapshot.tick
    (injectEntries e.scenario e.current_snapshot.turn
      (propagate e.graph e.current_snapshot.tick)) i hh hany
  rw [hget, hsv, hbk, stepNode_demand,
    max_eq_left (sub_nonneg.mpr (min_le_right _ _)), tick_node_states]
  ring

theorem step_conservation_witness :
    (0 < engine_w.current_snapshot.node_states.length ∧
     (engine_w.current_snapshot.node_states.getD 0 dNodeState).is_healthy = true ∧
     (∃ eid ∈ engine_w.graph.outgoing_of 0,
        (engine_w.current_snapshot.edge_states.getD eid dEdgeState).is_enabled
          = true) ∧
     0 < (engine_w.graph.node_by_id 0).capacity *
        ((engine_w.current_snapshot.tick).capacity_mod
          (engine_w.groups.group_by_node_id 0)).factorVal) ∧
    (engine_w.step.current_snapshot.node_states.getD 0 dNodeState).served +
      (engine_w.step.current_snapshot.node_states.getD 0 dNodeState).backlog =
    (engine_w.step.current_snapshot.node_states.getD 0 dNodeState).demand +
      (engine_w.current_snapshot.node_states.getD 0 dNodeState).backlog := by
  have h1 : 0 < engine_w.current_snapshot.node_states.length := by
    simp [engine_w, SimulationEngine.new, snap_s5]
  have h2 : (engine_w.current_snapshot.node_states.getD 0 dNodeState).is_healthy
      = true := by
    norm_num [engine_w, SimulationEngine.new, snap_s5, NodeState.is_healthy,
      List.getD]
  have h3 : ∃ eid ∈ engine_w.graph.outgoing_of 0,
      (engine_w.current_snapshot.edge_states.getD eid dEdgeState).is_enabled
        = true := by
    refine ⟨0, ?_, ?_⟩ <;>
      norm_num [engine_w, SimulationEngine.new, snap_s5, g_s5_eval,
        Graph.outgoing_of, EdgeState.is_enabled, List.getD]
  have h4 : 0 < (engine_w.graph.node_by_id 0).capacity *
      ((engine_w.current_snapshot.tick).capacity_mod
        (engine_w.groups.group_by_node_id 0)).factorVal := by
    norm_num [engine_w, SimulationEngine.new, snap_s5, g_s5_eval, gs_s5_eval,
      Snapshot.tick, Snapshot.capacity_mod, CapacityModifier.new,
      CapacityModifier.tick, CapacityModifier.is_active,
      CapacityModifier.factorVal, Graph.node_by_id,
      GroupSet.group_by_node_id, List.getD, dNode]
  exact ⟨⟨h1, h2, h3, h4⟩, step_conservation engine_w 0 h1 h2 h3 h4⟩

/-- C4: after every step(), every node state satisfies 0 ≤ served ≤
node.capacity times the modifier factor of its group read from the post-step
snapshot, backlog ≥ 0 and health in the unit interval, given an initial
snapshot within these bounds and non-negative capacities, gains, edge weights
and scenario loads. -/
theorem step_preserves_state_bounds
    (e : SimulationEngine)
    (hcap : ∀ n ∈ e.graph.nodes, 0 ≤ n.capacity)
    (hgain : ∀ n ∈ e.graph.nodes, 0 ≤ n.gain)
    (hw : ∀ ed ∈ e.graph.edges, 0 ≤ ed.weight)
    (hload : ∀ n t, 0 ≤ e.scenario.load n t)
    (hns : ∀ ns ∈ e.current_snapshot.node_states,
        0 ≤ ns.served ∧ 0 ≤ ns.backlog ∧ 0 ≤ ns.health ∧ ns.health ≤ 1)
    (hbound : ∀ i, i < e.current_snapshot.node_states.length →
        (e.current_snapshot.node_states.getD i dNodeState).served ≤
          (e.graph.node_by_id i).capacity *
            (e.current_snapshot.capacity_mod
              (e.groups.group_by_node_id i)).factorVal) :
    ∀ i, i < e.step.current_snapshot.node_states.length →
      0 ≤ (e.step.current_snapshot.node_states.getD i dNodeState).served ∧
      (e.step.current_snapshot.node_states.getD i dNodeState).served ≤
        (e.graph.node_by_id i).capacity *
          (e.step.current_snapshot.capacity_mod
            (e.groups.group_by_node_id i)).factorVal ∧
      0 ≤ (e.step.current_snapshot.node_states.getD i dNodeState).backlog ∧
      0 ≤ (e.step.current_snapshot.node_states.getD i dNodeState).health ∧
      (e.step.current_snapshot.node_states.getD i dNodeState).health ≤ 1 := by
  intro i hi
  have hi' : i < e.current_snapshot.node_states.length := by
    rw [step_node_states] at hi
    simpa using hi
  have hget : e.step.current_snapshot.node_states.getD i dNodeState =
      stepNode e.graph e.groups e.current_snapshot.tick
        (injectEntries e.scenario e.current_snapshot.turn
          (propagate e.graph e.current_snapshot.tick)) i := by
    rw [step_node_states]
    exact getD_map_range dNodeState _ _ i hi'
  have hmods : e.step.current_snapshot.capacity_mod
        (e.groups.group_by_node_id i) =
      (e.current_snapshot.tick).capacity_mod (e.groups.group_by_node_id i) := rfl
  rw [hget, hmods]
  have hcurns : (e.current_snapshot.tick).node_states =
      e.current_snapshot.node_states := rfl
  have hprop : 0 ≤ (injectEntries e.scenario e.current_snapshot.turn
      (propagate e.graph e.current_snapshot.tick)).getD i 0 := by
    refine injectEntries_nonneg _ _ _ hload ?_ i
    refine propagate_nonneg _ _ hw hgain ?_
    rw [hcurns]
    exact fun ns h => (hns ns h).1
  have hb : 0 ≤ ((e.current_snapshot.tick).node_states.getD i dNodeState).backlog := by
    rw [hcurns]
    exact getD_prop (fun ns => 0 ≤ ns.backlog) dNodeState le_rfl _
      (fun ns h => (hns ns h).2.1) i
  have hh0 : 0 ≤ ((e.current_snapshot.tick).node_states.getD i dNodeState).health := by
    rw [hcurns]
    exact getD_prop (fun ns => 0 ≤ ns.health) dNodeState le_rfl _
      (fun ns h => (hns ns h).2.2.1) i
  have hh1 : ((e.current_snapshot.tick).node_states.getD i dNodeState).health ≤ 1 := by
    rw [hcurns]
    exact getD_prop (fun ns => ns.health ≤ 1) dNodeState zero_le_one _
      (fun ns h => (hns ns h).2.2.2) i
  have hcapn : 0 ≤ (e.graph.node_by_id i).capacity :=
    getD_prop (fun n => 0 ≤ n.capacity) dNode le_rfl _ hcap i
  have hsv : 0 ≤ (e.current_snapshot.node_states.getD i dNodeState).served :=
    getD_prop (fun ns => 0 ≤ ns.served) dNodeState le_rfl _
      (fun ns h => (hns ns h).1) i
  have heff : 0 ≤ (e.graph.node_by_id i).capacity *
      ((e.current_snapshot.tick).capacity_mod
        (e.groups.group_by_node_id i)).factorVal := by
    rw [tick_capacity_mod]
    rcases factorVal_tick
        (e.current_snapshot.capacity_mod (e.groups.group_by_node_id i)) with h | h
    · rw [h]
      exact le_trans hsv (hbound i hi')
    · rw [h, mul_one]
      exact hcapn
  exact stepNode_bounds e.graph e.groups e.current_snapshot.tick _ i
    hprop hb hh0 hh1 heff

theorem step_preserves_state_bounds_witness :
    (0 < engine_w.step.current_snapshot.node_states.length) ∧
    (0 ≤ (engine_w.step.current_snapshot.node_states.getD 0 dNodeState).served ∧
     (engine_w.step.current_snapshot.node_states.getD 0 dNodeState).served ≤
       (engine_w.graph.node_by_id 0).capacity *
         (engine_w.step.current_snapshot.capacity_mod
           (engine_w.groups.group_by_node_id 0)).factorVal ∧
     0 ≤ (engine_w.step.current_snapshot.node_states.getD 0 dNodeState).backlog ∧
     0 ≤ (engine_w.step.current_snapshot.node_states.getD 0 dNodeState).health ∧
     (engine_w.step.current_snapshot.node_states.getD 0 dNodeState).health ≤ 1) :=
  ⟨by simp [step_node_states, engine_w, SimulationEngine.new, snap_s5],
   step_preserves_state_bounds engine_w
     (by norm_num [engine_w, SimulationEngine.new, g_s5, Graph.new])
     (by norm_num [engine_w, SimulationEngine.new, g_s5, Graph.new])
     (by norm_num [engine_w, SimulationEngine.new, g_s5, Graph.new])
     (fun n t => (by norm_num : (0:ℚ) ≤ 10))
     (by norm_num [engine_w, SimulationEngine.new, snap_s5])
     (by
       intro i hi
       simp only [engine_w, SimulationEngine.new, snap_s5, List.length_cons,
         List.length_nil] at hi
       interval_cases i <;>
         norm_num [engine_w, SimulationEngine.new, snap_s5, g_s5_eval,
           gs_s5_eval, Graph.node_by_id, GroupSet.group_by_node_id,
           Snapshot.capacity_mod, CapacityModifier.new,
           CapacityModifier.factorVal, dNodeState, dNode, List.getD])
     0
     (by simp [step_node_states, engine_w, SimulationEngine.new, snap_s5])⟩

/-- C5: an inactive CapacityModifier with the implementation value
total_turns = 3 accepts apply(f) (returns true); the first tick after the
application only clears just_applied, leaving remaining_turns untouched and
the modifier active; after exactly total_turns + 1 = 4 consecutive ticks the
modifier is inactive again with factor() = 1. -/
theorem capacity_modifier_lifecycle (m : CapacityModifier) (f : ℚ)
    (hm : m.is_active = false) (ht : m.turns = 3) :
    (m.apply f).1 = true ∧
    ((m.apply f).2.tick.just_applied = false ∧
     (m.apply f).2.tick.remaining = (m.apply f).2.remaining ∧
     (m.apply f).2.tick.is_active = true) ∧
    (m.apply f).2.tick.tick.tick.tick.is_active = false ∧
    (m.apply f).2.tick.tick.tick.tick.factorVal = 1 := by
  obtain ⟨fc, ac, ja, tu, re⟩ := m
  simp only [CapacityModifier.is_active] at hm
  dsimp only at hm ht
  subst hm ht
  simp [CapacityModifier.apply, CapacityModifier.tick,
    CapacityModifier.is_active, CapacityModifier.deactivate,
    CapacityModifier.factorVal]

theorem capacity_modifier_lifecycle_witness :
    (CapacityModifier.new.is_active = false ∧ CapacityModifier.new.turns = 3) ∧
    ((CapacityModifier.new.apply 7).1 = true ∧
     ((CapacityModifier.new.apply 7).2.tick.just_applied = false ∧
      (CapacityModifier.new.apply 7).2.tick.remaining =
        (CapacityModifier.new.apply 7).2.remaining ∧
      (CapacityModifier.new.apply 7).2.tick.is_active = true) ∧
     (CapacityModifier.new.apply 7).2.tick.tick.tick.tick.is_active = false ∧
     (CapacityModifier.new.apply 7).2.tick.tick.tick.tick.factorVal = 1) :=
  ⟨⟨rfl, rfl⟩, capacity_modifier_lifecycle CapacityModifier.new 7 rfl rfl⟩

theorem set_getD_self {α : Type _} (d : α) :
    ∀ (l : List α) (i : Nat), i < l.length → l.set i (l.getD i d) = l := by
  intro l
  induction l with
  | nil => intro i h; simp at h
  | cons a t ih =>
    intro i h
    cases i with
    | zero => simp
    | succ j => simpa using ih j (by simpa using h)

/-- C6: try_capacity_modifier is atomic and budget-gated: with no remaining
ops it is the identity; on an already-active modifier it changes nothing and
keeps the budget; on an inactive modifier it activates exactly that modifier
and decrements remaining_ops by one, leaving every other engine component
unchanged; try_throttle_group and try_boost_group delegate with factors 0.5
and 1.5. -/
theorem try_capacity_modifier_spec (e : SimulationEngine) (gid : Nat) (f : ℚ)
    (hg : gid < e.current_snapshot.capacity_mods.length) :
    (e.remaining_ops = 0 → e.try_capacity_modifier gid f = e) ∧
    (0 < e.remaining_ops →
      (e.current_snapshot.capacity_mod gid).is_active = true →
      e.try_capacity_modifier gid f = e) ∧
    (0 < e.remaining_ops →
      (e.current_snapshot.capacity_mod gid).is_active = false →
      (e.try_capacity_modifier gid f).remaining_ops = e.remaining_ops - 1 ∧
      (e.try_capacity_modifier gid f).current_snapshot.capacity_mods =
        e.current_snapshot.capacity_mods.set gid
          ((e.current_snapshot.capacity_mod gid).apply f).2 ∧
      ((e.try_capacity_modifier gid f).current_snapshot.capacity_mod
          gid).is_active = true ∧
      (e.try_capacity_modifier gid f).current_snapshot.node_states =
        e.current_snapshot.node_states ∧
      (e.try_capacity_modifier gid f).current_snapshot.edge_states =
        e.current_snapshot.edge_states ∧
      (e.try_capacity_modifier gid f).current_snapshot.turn =
        e.current_snapshot.turn ∧
      (e.try_capacity_modifier gid f).graph = e.graph ∧
      (e.try_capacity_modifier gid f).previous_snapshot =
        e.previous_snapshot) ∧
    e.try_throttle_group gid = e.try_capacity_modifier gid (1/2) ∧
    e.try_boost_group gid = e.try_capacity_modifier gid (3/2) := by
  refine ⟨?_, ?_, ?_, rfl, rfl⟩
  · intro h0
    simp only [SimulationEngine.try_capacity_modifier]
    rw [if_neg (by omega)]
  · intro hpos hact
    have hact' : (e.current_snapshot.capacity_mods.getD gid
        CapacityModifier.new).is_active = true := hact
    have happ : (e.current_snapshot.capacity_mods.getD gid
        CapacityModifier.new).apply f =
        (false, e.current_snapshot.capacity_mods.getD gid
          CapacityModifier.new) := by
      unfold CapacityModifier.apply
      rw [if_pos hact']
    simp only [SimulationEngine.try_capacity_modifier, Snapshot.update_capacity]
    rw [if_pos hpos]
    simp only [happ, Bool.false_eq_true, if_false]
    rw [set_getD_self CapacityModifier.new _ gid hg]
  · intro hpos hinact
    have hinact' : (e.current_snapshot.capacity_mods.getD gid
        CapacityModifier.new).is_active = false := hinact
    have happ : (e.current_snapshot.capacity_mods.getD gid
        CapacityModifier.new).apply f =
        (true,
         ⟨f, true, true,
          (e.current_snapshot.capacity_mods.getD gid CapacityModifier.new).turns,
          (e.current_snapshot.capacity_mods.getD gid
            CapacityModifier.new).turns⟩) := by
      unfold CapacityModifier.apply
      rw [if_neg (by rw [hinact']; exact Bool.false_ne_true)]
    have hres : e.try_capacity_modifier gid f =
        { e with
          current_snapshot :=
            { e.current_snapshot with
              capacity_mods := e.current_snapshot.capacity_mods.set gid
                ⟨f, true, true,
                 (e.current_snapshot.capacity_mods.getD gid
                   CapacityModifier.new).turns,
                 (e.current_snapshot.capacity_mods.getD gid
                   CapacityModifier.new).turns⟩ },
          remaining_ops := e.remaining_ops - 1 } := by
      simp only [SimulationEngine.try_capacity_modifier,
        Snapshot.update_capacity]
      rw [if_pos hpos]
      simp only [happ]
      rw [if_pos trivial]
    rw [hres]
    refine ⟨rfl, ?_, ?_, rfl, rfl, rfl, rfl, rfl⟩
    · simp only [Snapshot.capacity_mod, happ]
    · show ((e.current_snapshot.capacity_mods.set gid _).getD gid
        CapacityModifier.new).is_active = true
      rw [getD_set_self CapacityModifier.new _ _ (by simpa using hg)]
      rfl

theorem try_capacity_modifier_spec_witness :
    0 < engine_s5.current_snapshot.capacity_mods.length ∧
    ((engine_s5.remaining_ops = 0 →
        engine_s5.try_capacity_modifier 0 2 = engine_s5) ∧
     (0 < engine_s5.remaining_ops →
       (engine_s5.current_snapshot.capacity_mod 0).is_active = true →
       engine_s5.try_capacity_modifier 0 2 = engine_s5) ∧
     (0 < engine_s5.remaining_ops →
       (engine_s5.current_snapshot.capacity_mod 0).is_active = false →
       (engine_s5.try_capacity_modifier 0 2).remaining_ops =
         engine_s5.remaining_ops - 1 ∧
       (engine_s5.try_capacity_modifier 0 2).current_snapshot.capacity_mods =
         engine_s5.current_snapshot.capacity_mods.set 0
           ((engine_s5.current_snapshot.capacity_mod 0).apply 2).2 ∧
       ((engine_s5.try_capacity_modifier 0 2).current_snapshot.capacity_mod
           0).is_active = true ∧
       (engine_s5.try_capacity_modifier 0 2).current_snapshot.node_states =
         engine_s5.current_snapshot.node_states ∧
       (engine_s5.try_capacity_modifier 0 2).current_snapshot.edge_states =
         engine_s5.current_snapshot.edge_states ∧
       (engine_s5.try_capacity_modifier 0 2).current_snapshot.turn =
         engine_s5.current_snapshot.turn ∧
       (engine_s5.try_capacity_modifier 0 2).graph = engine_s5.graph ∧
       (engine_s5.try_capacity_modifier 0 2).previous_snapshot =
         engine_s5.previous_snapshot) ∧
     engine_s5.try_throttle_group 0 = engine_s5.try_capacity_modifier 0 (1/2) ∧
     engine_s5.try_boost_group 0 = engine_s5.try_capacity_modifier 0 (3/2)) :=
  ⟨by decide, try_capacity_modifier_spec engine_s5 0 2 (by decide)⟩

theorem propagate_length (g : Graph) (cur : Snapshot) :
    (propagate g cur).length = g.node_count := by
  refine foldl_inv (P := fun (l : List ℚ) => l.length = g.node_count) _ ?_ _ _
    (by simp)
  intro b a hb
  dsimp only
  split
  · refine foldl_inv (P := fun (l : List ℚ) => l.length = g.node_count) _ ?_ _ _ hb
    intro b2 a2 hb2
    rw [bump_length]
    exact hb2
  · exact hb

/-- C7 amended: the external demand injected at a node v during one step is
load(v, turn) multiplied by the number of occurrences of v in the entry-node
list: the new demand equals the propagated contribution plus that multiple,
so duplicate occurrences multiply the injected load. -/
theorem step_demand_entry_multiplicity
    (e : SimulationEngine) (v : Nat)
    (hv : v < e.current_snapshot.node_states.length)
    (hlen : e.current_snapshot.node_states.length = e.graph.node_count)
    (hentry : ∀ n ∈ e.scenario.entry_nodes, n < e.graph.node_count) :
    (e.step.current_snapshot.node_states.getD v dNodeState).demand =
      (propagate e.graph e.current_snapshot.tick).getD v 0 +
        (e.scenario.entry_nodes.count v : ℚ) *
          e.scenario.load v e.current_snapshot.turn := by
  have hget : e.step.current_snapshot.node_states.getD v dNodeState =
      stepNode e.graph e.groups e.current_snapshot.tick
        (injectEntries e.scenario e.current_snapshot.turn
          (propagate e.graph e.current_snapshot.tick)) v := by
    rw [step_node_states]
    exact getD_map_range dNodeState _ _ v hv
  rw [hget, stepNode_demand]
  exact foldl_bump_count
    (fun id => e.scenario.load id e.current_snapshot.turn)
    e.scenario.entry_nodes
    (propagate e.graph e.current_snapshot.tick)
    (fun n hn => by rw [propagate_length]; exact hentry n hn)
    v (by rw [propagate_length]; omega)

theorem step_demand_entry_multiplicity_witness :
    (0 < engine_dup.current_snapshot.node_states.length ∧
     engine_dup.current_snapshot.node_states.length =
       engine_dup.graph.node_count ∧
     (∀ n ∈ engine_dup.scenario.entry_nodes, n < engine_dup.graph.node_count)) ∧
    (engine_dup.step.current_snapshot.node_states.getD 0 dNodeState).demand =
      (propagate engine_dup.graph engine_dup.current_snapshot.tick).getD 0 0 +
        (engine_dup.scenario.entry_nodes.count 0 : ℚ) *
          engine_dup.scenario.load 0 engine_dup.current_snapshot.turn :=
  ⟨⟨by decide, by decide, by decide⟩,
   step_demand_entry_multiplicity engine_dup 0 (by decide) (by decide)
     (by decide)⟩

theorem entry_duplication_counterexample :
    engine_dup.scenario.entry_nodes = [0, 0] ∧
    engine_dup.scenario.load 0 engine_dup.current_snapshot.turn = 5 ∧
    (engine_dup.step.current_snapshot.node_states.getD 0 dNodeState).demand
      = 10 ∧
    (10 : ℚ) ≠ 5 := by
  refine ⟨rfl, rfl, ?_, by norm_num⟩
  norm_num [engine_dup, SimulationEngine.new, snap_dup, scen_dup, g_dup_eval,
    gs_dup_eval, SimulationEngine.step, Snapshot.tick, propagate,
    injectEntries, stepNode, bump, Graph.node_by_id, Graph.outgoing_of,
    Graph.node_count, Snapshot.capacity_mod, GroupSet.group_by_node_id,
    CapacityModifier.new, CapacityModifier.tick, CapacityModifier.is_active,
    CapacityModifier.factorVal, NodeState.set_demand, NodeState.set_served,
    NodeState.set_backlog, NodeState.set_health, NodeState.is_healthy,
    EdgeState.is_enabled, List.range_succ, List.getD, dNodeState, dNode]

/-- C3 correction: SimulationEngine::new performs no validation at all; for
any inputs whatsoever it returns the engine that stores its four arguments
with no previous snapshot and remaining_ops seeded from the scenario. -/
theorem engine_new_no_validation (g : Graph) (gs : GroupSet) (snap : Snapshot)
    (scen : Scenario) :
    SimulationEngine.new g gs snap scen =
      ⟨g, gs, none, snap, scen, scen.ops_per_turn⟩ := rfl

theorem engine_new_counterexample :
    (SimulationEngine.new g_dup gs_dup snap_bad scen_zero).current_snapshot
        = snap_bad ∧
    snap_bad.node_states.length = 0 ∧
    g_dup.nodes.length = 1 ∧
    snap_bad.capacity_mods.length = 0 ∧
    gs_dup.groups.length = 1 :=
  ⟨rfl, rfl, rfl, rfl, rfl⟩

/-- C1: for every snapshot and healthy producer u whose enabled outgoing
edges have total weight W > 0, edge_load summed over the enabled outgoing
edges of u equals served × gain, given non-negative edge weights and
non-negative served; in particular the sum is 0 when served is 0. -/
theorem edge_load_sum (s : Snapshot) (g : Graph) (u : Nat)
    (hfrom : ∀ eid ∈ g.outgoing_of u, (g.edge_by_id eid).from_ = u)
    (hh : (s.node_states.getD u dNodeState).is_healthy = true)
    (hw : ∀ ed ∈ g.edges, 0 ≤ ed.weight)
    (hs : 0 ≤ (s.node_states.getD u dNodeState).served)
    (hW : 0 < enabled_weight s g u) :
    (((g.outgoing_of u).filter
        (fun eid => (s.edge_states.getD eid dEdgeState).is_enabled)).map
      (fun eid => s.edge_load eid g)).sum =
      (s.node_states.getD u dNodeState).served * (g.node_by_id u).gain := by
  by_cases hz : (s.node_states.getD u dNodeState).served = 0
  · rw [hz, zero_mul]
    refine List.sum_eq_zero ?_
    intro x hx
    obtain ⟨eid, hmem, rfl⟩ := List.mem_map.mp hx
    have hfu : (g.edge_by_id eid).from_ = u :=
      hfrom eid (List.mem_filter.mp hmem).1
    simp only [Snapshot.edge_load, hfu]
    rw [if_pos (Or.inr (Or.inr hz))]
  · have key : ∀ eid ∈ (g.outgoing_of u).filter
        (fun eid => (s.edge_states.getD eid dEdgeState).is_enabled),
        s.edge_load eid g =
          ((s.node_states.getD u dNodeState).served * (g.node_by_id u).gain) *
            ((g.edge_by_id eid).weight / enabled_weight s g u) := by
      intro eid hmem
      obtain ⟨hout, hen⟩ := List.mem_filter.mp hmem
      have hfu : (g.edge_by_id eid).from_ = u := hfrom eid hout
      have hWbody : ¬ ((((g.outgoing_of u).filter
          (fun e_id => (s.edge_states.getD e_id dEdgeState).is_enabled)).map
            (fun e_id => (g.edge_by_id e_id).weight)).sum = 0) :=
        ne_of_gt hW
      have hguard : ¬ (¬ (s.node_states.getD u dNodeState).is_healthy = true
          ∨ ¬ (s.edge_states.getD eid dEdgeState).is_enabled = true
          ∨ (s.node_states.getD u dNodeState).served = 0) := by
        push_neg
        exact ⟨hh, by simpa using hen, hz⟩
      simp only [Snapshot.edge_load, hfu]
      rw [if_neg hguard, if_neg hWbody]
      rfl
    rw [List.map_congr_left key, List.sum_map_mul_left]
    have hstep : ∀ eid ∈ (g.outgoing_of u).filter
        (fun eid => (s.edge_states.getD eid dEdgeState).is_enabled),
        (fun eid => (g.edge_by_id eid).weight / enabled_weight s g u) eid =
          (fun eid => (g.edge_by_id eid).weight * (enabled_weight s g u)⁻¹) eid :=
      fun eid _ => div_eq_mul_inv _ _
    rw [List.map_congr_left hstep, List.sum_map_mul_right]
    have hsum : (((g.outgoing_of u).filter
        (fun eid => (s.edge_states.getD eid dEdgeState).is_enabled)).map
          (fun eid => (g.edge_by_id eid).weight)).sum *
            (enabled_weight s g u)⁻¹ = 1 :=
      mul_inv_cancel₀ (ne_of_gt hW)
    rw [hsum, mul_one]

theorem edge_load_sum_witness :
    ((∀ eid ∈ g_s5.outgoing_of 0, (g_s5.edge_by_id eid).from_ = 0) ∧
     (snap_c1.node_states.getD 0 dNodeState).is_healthy = true ∧
     (∀ ed ∈ g_s5.edges, 0 ≤ ed.weight) ∧
     0 ≤ (snap_c1.node_states.getD 0 dNodeState).served ∧
     0 < enabled_weight snap_c1 g_s5 0) ∧
    (((g_s5.outgoing_of 0).filter
        (fun eid => (snap_c1.edge_states.getD eid dEdgeState).is_enabled)).map
      (fun eid => snap_c1.edge_load eid g_s5)).sum =
      (snap_c1.node_states.getD 0 dNodeState).served *
        (g_s5.node_by_id 0).gain := by
  have h1 : ∀ eid ∈ g_s5.outgoing_of 0, (g_s5.edge_by_id eid).from_ = 0 := by
    decide
  have h2 : (snap_c1.node_states.getD 0 dNodeState).is_healthy = true := by
    decide
  have h3 : ∀ ed ∈ g_s5.edges, 0 ≤ ed.weight := by
    norm_num [g_s5_eval]
  have h4 : 0 ≤ (snap_c1.node_states.getD 0 dNodeState).served := by
    norm_num [snap_c1, List.getD, dNodeState]
  have h5 : 0 < enabled_weight snap_c1 g_s5 0 := by
    norm_num [enabled_weight, g_s5_eval, snap_c1, Graph.outgoing_of,
      Graph.edge_by_id, EdgeState.is_enabled, List.getD, dEdgeState, dEdge]
  exact ⟨⟨h1, h2, h3, h4, h5⟩, edge_load_sum snap_c1 g_s5 0 h1 h2 h3 h4 h5⟩

/-- C9: aggregate_groups classifies every group from the current snapshot
avg_health, the arithmetic mean of health over the group nodes (0 when the
group is empty), with half-open-downwards thresholds: Ok iff above 0.8,
Degraded iff in (0.3, 0.8], Critical iff in (0, 0.3], Failed iff at most 0. -/
theorem aggregate_health_classification
    (group_set : GroupSet) (cur prev : Snapshot) (g : Graph) (i : Nat)
    (hi : i < group_set.groups.length) :
    ((aggregate_groups group_set cur prev g).getD i default).raw_health =
      calc_health cur (group_set.groups.getD i dGroup) ∧
    calc_health cur (group_set.groups.getD i dGroup) =
      (if (group_set.groups.getD i dGroup).nodes.length = 0 then 0
       else ((group_set.groups.getD i dGroup).nodes.map
          (fun id => (cur.node_states.getD id dNodeState).health)).sum /
            ((group_set.groups.getD i dGroup).nodes.length : ℚ)) ∧
    (((aggregate_groups group_set cur prev g).getD i default).health =
        GroupHealth.Ok ↔
      4/5 < calc_health cur (group_set.groups.getD i dGroup)) ∧
    (((aggregate_groups group_set cur prev g).getD i default).health =
        GroupHealth.Degraded ↔
      3/10 < calc_health cur (group_set.groups.getD i dGroup) ∧
        calc_health cur (group_set.groups.getD i dGroup) ≤ 4/5) ∧
    (((aggregate_groups group_set cur prev g).getD i default).health =
        GroupHealth.Critical ↔
      0 < calc_health cur (group_set.groups.getD i dGroup) ∧
        calc_health cur (group_set.groups.getD i dGroup) ≤ 3/10) ∧
    (((aggregate_groups group_set cur prev g).getD i default).health =
        GroupHealth.Failed ↔
      calc_health cur (group_set.groups.getD i dGroup) ≤ 0) := by
  unfold aggregate_groups
  rw [getD_map_range default group_set.groups.length _ i hi]
  refine ⟨rfl, by simp [calc_health, List.length_map], ?_, ?_, ?_, ?_⟩ <;>
    dsimp only <;>
    split_ifs with h1 h2 h3 <;>
    constructor <;>
    intro hx <;>
    first
      | rfl
      | exact hx
      | exact hx.elim
      | linarith
      | exact GroupHealth.noConfusion hx
      | exact ⟨by linarith, by linarith⟩
      | (exfalso; obtain ⟨h4, h5⟩ := hx; linarith)
      | (exfalso; linarith)

theorem aggregate_health_classification_witness :
    0 < gs_s5.groups.length ∧
    (((aggregate_groups gs_s5 snap_s5 snap_s5 g_s5).getD 0 default).raw_health =
       calc_health snap_s5 (gs_s5.groups.getD 0 dGroup) ∧
     calc_health snap_s5 (gs_s5.groups.getD 0 dGroup) =
       (if (gs_s5.groups.getD 0 dGroup).nodes.length = 0 then 0
        else ((gs_s5.groups.getD 0 dGroup).nodes.map
           (fun id => (snap_s5.node_states.getD id dNodeState).health)).sum /
             ((gs_s5.groups.getD 0 dGroup).nodes.length : ℚ)) ∧
     (((aggregate_groups gs_s5 snap_s5 snap_s5 g_s5).getD 0 default).health =
         GroupHealth.Ok ↔
       4/5 < calc_health snap_s5 (gs_s5.groups.getD 0 dGroup)) ∧
     (((aggregate_groups gs_s5 snap_s5 snap_s5 g_s5).getD 0 default).health =
         GroupHealth.Degraded ↔
       3/10 < calc_health snap_s5 (gs_s5.groups.getD 0 dGroup) ∧
         calc_health snap_s5 (gs_s5.groups.getD 0 dGroup) ≤ 4/5) ∧
     (((aggregate_groups gs_s5 snap_s5 snap_s5 g_s5).getD 0 default).health =
         GroupHealth.Critical ↔
       0 < calc_health snap_s5 (gs_s5.groups.getD 0 dGroup) ∧
         calc_health snap_s5 (gs_s5.groups.getD 0 dGroup) ≤ 3/10) ∧
     (((aggregate_groups gs_s5 snap_s5 snap_s5 g_s5).getD 0 default).health =
         GroupHealth.Failed ↔
       calc_health snap_s5 (gs_s5.groups.getD 0 dGroup) ≤ 0)) :=
  ⟨by decide,
   aggregate_health_classification gs_s5 snap_s5 snap_s5 g_s5 0 (by decide)⟩

/-- C8: scenario S5 end to end on nodes A(100,1), B(40,1) with edge A to B,
per-node groups, loads 100, 80, 20, and throttle 0.5 applied to group 0
before the first step: after step 1 node A has demand 100, served 50,
backlog 50; after step 2 node B has demand 50, served 40, backlog 10 and
group 0 is still throttled at factor 0.5. -/
theorem s5_end_to_end :
    (((engine_s5.try_throttle_group 0).step.current_snapshot.node_states.getD
        0 dNodeState).demand = 100 ∧
     ((engine_s5.try_throttle_group 0).step.current_snapshot.node_states.getD
        0 dNodeState).served = 50 ∧
     ((engine_s5.try_throttle_group 0).step.current_snapshot.node_states.getD
        0 dNodeState).backlog = 50) ∧
    (((engine_s5.try_throttle_group
        0).step.step.current_snapshot.node_states.getD 1 dNodeState).demand
        = 50 ∧
     ((engine_s5.try_throttle_group
        0).step.step.current_snapshot.node_states.getD 1 dNodeState).served
        = 40 ∧
     ((engine_s5.try_throttle_group
        0).step.step.current_snapshot.node_states.getD 1 dNodeState).backlog
        = 10) ∧
    ((engine_s5.try_throttle_group
        0).step.step.current_snapshot.capacity_mod 0).is_active = true ∧
    ((engine_s5.try_throttle_group
        0).step.step.current_snapshot.capacity_mod 0).factorVal = 1/2 := by
  norm_num [engine_s5, g_s5, gs_s5, snap_s5, scen_s5, SimulationEngine.new,
    SimulationEngine.step, SimulationEngine.try_throttle_group,
    SimulationEngine.try_capacity_modifier, Snapshot.update_capacity,
    Snapshot.tick, Snapshot.capacity_mod, CapacityModifier.apply,
    CapacityModifier.tick, CapacityModifier.new, CapacityModifier.is_active,
    CapacityModifier.factorVal, CapacityModifier.deactivate,
    propagate, injectEntries, stepNode, bump, Graph.new, Graph.node_by_id,
    Graph.edge_by_id, Graph.outgoing_of, Graph.node_count, pushAt,
    Snapshot.edge_load, NodeState.set_demand, NodeState.set_served,
    NodeState.set_backlog, NodeState.set_health, NodeState.is_healthy,
    EdgeState.is_enabled, GroupSet.new, GroupSet.group_by_node_id, writeGroup,
    List.range_succ, List.getD, dNodeState, dEdgeState, dNode, dEdge]

/-- C10: edge states are immutable for the engine lifetime: any sequence of
step(), try_throttle_group and try_boost_group calls leaves the current
snapshot edge-state vector exactly equal to the initial one. -/
theorem edge_states_immutable :
    ∀ (ops : List EngineOp) (e : SimulationEngine),
      (ops.foldl applyOp e).current_snapshot.edge_states =
        e.current_snapshot.edge_states := by
  intro ops
  induction ops with
  | nil => intro e; rfl
  | cons op t ih =>
    intro e
    rw [List.foldl_cons, ih]
    cases op with
    | step => rfl
    | throttle gid =>
      simp only [applyOp, SimulationEngine.try_throttle_group,
        SimulationEngine.try_capacity_modifier, Snapshot.update_capacity]
      split <;> rfl
    | boost gid =>
      simp only [applyOp, SimulationEngine.try_boost_group,
        SimulationEngine.try_capacity_modifier, Snapshot.update_capacity]
      split <;> rfl

end FaultGraph
